import Mathlib

/-!
Verification of the file-storage backend and its RAG retrieval pipeline.

The Node.js AI controller (`aiController.js`), the file/features controllers
(`fileController.js`, `featuresController.js`, `versionController.js`) and the
mongoose `File` schema are embedded as pure Lean functions over explicit
request data and provider outcomes.  The Python RAG service internals
(`chunker.py`, `vector_store.py`) are not among the sources; the chunker and
the vector search are modelled from the specification and marked as such.
-/

namespace DriveRag

/- ============================================================ -/
/- Shared JS-semantics helpers                                  -/
/- ============================================================ -/

/-- Truthiness test for `if (!x)` on an optional string field of a JSON
request body: the field is absent (`undefined`/`null`) or the empty string. -/
def jsFalsy : Option String → Bool
  | none => true
  | some s => s = ""

/-- The JS short-circuit `a || b` on an optional string `a` with fallback
`b`: falls through when `a` is absent or empty. -/
def jsOr (a : Option String) (b : String) : String :=
  match a with
  | some s => if s = "" then b else s
  | none => b

/-- Model of the JS `String.prototype.trim`: strip leading and trailing
whitespace, computed structurally on the character list. -/
def jsTrim (s : String) : String :=
  String.mk (((s.data.dropWhile Char.isWhitespace).reverse.dropWhile
    Char.isWhitespace).reverse)

/-- The error object thrown by an axios call, as the controllers observe it
in their catch blocks: `error.code`, `error.message` and
`error.response?.data?.error`. -/
structure AxiosError where
  code : Option String
  message : String
  responseDataError : Option String
deriving DecidableEq, Repr

/-- Outcome of a single axios call to the RAG service: a 2xx response with a
parsed JSON body, or a thrown error. -/
inductive RagOutcome (α : Type) where
  | ok (data : α)
  | threw (e : AxiosError)
deriving DecidableEq, Repr

/- ============================================================ -/
/- aiController.indexFile                                       -/
/- ============================================================ -/

/-- Body of a 2xx response from the RAG service `POST /index-file`, per the
documented route contract: success flag, message, chunk count. -/
structure IndexRagBody where
  success : Bool
  message : String
  numChunks : Option Nat
deriving DecidableEq, Repr

/-- The JSON response the `indexFile` handler sends to its caller. -/
structure IndexResult where
  status : Nat
  success : Bool
  message : Option String
  numChunks : Option Nat
  error : Option String
deriving DecidableEq, Repr

/-- Request forwarded by the controller to the RAG service `/index-file`. -/
structure IndexForward where
  filePath : String
  fileId : Option String
deriving DecidableEq, Repr

/-- Embedding of `indexFile` (aiController.js): validates `filePath`, calls
the RAG service, forwards `response.data` on success; on a thrown error
responds 503 for `ECONNREFUSED` and 500 otherwise, always with
`success: false`.  Also returns the list of RAG requests issued. -/
def indexFile (filePath fileId : Option String)
    (rag : IndexForward → RagOutcome IndexRagBody) :
    IndexResult × List IndexForward :=
  if jsFalsy filePath then
    (⟨400, false, none, none, some "File path is required"⟩, [])
  else
    let fwd : IndexForward := ⟨filePath.getD "", fileId⟩
    let r : IndexResult :=
      match rag fwd with
      | .ok d => ⟨200, d.success, some d.message, d.numChunks, none⟩
      | .threw e =>
        if e.code = some "ECONNREFUSED" then
          ⟨503, false, none, none,
            some "AI service is not available. Please ensure the RAG service is running."⟩
        else
          ⟨500, false, none, none,
            some (jsOr e.responseDataError
              (jsOr (some e.message) "Failed to index file"))⟩
    (r, [fwd])

/- ============================================================ -/
/- aiController.askQuestion / summarizeFile                     -/
/- ============================================================ -/

/-- The JS check `!question || !question.trim()`: the question is absent or
trims to the empty string. -/
def blankQuestion : Option String → Bool
  | none => true
  | some s => jsTrim s = ""

/-- Body of a 2xx response from the RAG service `POST /ask`. -/
structure AskRagBody where
  success : Bool
  answer : String
deriving DecidableEq, Repr

/-- The JSON response the `askQuestion` handler sends to its caller. -/
structure AskResult where
  status : Nat
  success : Bool
  answer : Option String
  error : Option String
deriving DecidableEq, Repr

/-- Request forwarded by the controller to the RAG service `/ask`. -/
structure AskForward where
  filePath : String
  fileId : Option String
  question : String
deriving DecidableEq, Repr

/-- Embedding of `askQuestion` (aiController.js): requires `filePath` and a
non-blank `question`; forwards the trimmed question once; maps
`ECONNREFUSED` to 503 and any other thrown error to 500, with
`success: false`. -/
def askQuestion (filePath fileId question : Option String)
    (rag : AskForward → RagOutcome AskRagBody) :
    AskResult × List AskForward :=
  if jsFalsy filePath then
    (⟨400, false, none, some "File path is required"⟩, [])
  else if blankQuestion question then
    (⟨400, false, none, some "Question is required"⟩, [])
  else
    let fwd : AskForward := ⟨filePath.getD "", fileId, jsTrim (question.getD "")⟩
    let r : AskResult :=
      match rag fwd with
      | .ok d => ⟨200, d.success, some d.answer, none⟩
      | .threw e =>
        if e.code = some "ECONNREFUSED" then
          ⟨503, false, none,
            some "AI service is not available. Please ensure the RAG service is running."⟩
        else
          ⟨500, false, none,
            some (jsOr e.responseDataError
              (jsOr (some e.message) "Failed to get answer"))⟩
    (r, [fwd])

/-- Body of a 2xx response from the RAG service `POST /summarize`. -/
structure SummaryRagBody where
  success : Bool
  summary : String
deriving DecidableEq, Repr

/-- The JSON response the `summarizeFile` handler sends to its caller. -/
structure SummaryResult where
  status : Nat
  success : Bool
  summary : Option String
  error : Option String
deriving DecidableEq, Repr

/-- Embedding of `summarizeFile` (aiController.js): requires `filePath`;
forwards once to `/summarize`; 503 on `ECONNREFUSED`, 500 on other thrown
errors, with `success: false`. -/
def summarizeFile (filePath fileId : Option String)
    (rag : IndexForward → RagOutcome SummaryRagBody) :
    SummaryResult × List IndexForward :=
  if jsFalsy filePath then
    (⟨400, false, none, some "File path is required"⟩, [])
  else
    let fwd : IndexForward := ⟨filePath.getD "", fileId⟩
    let r : SummaryResult :=
      match rag fwd with
      | .ok d => ⟨200, d.success, some d.summary, none⟩
      | .threw e =>
        if e.code = some "ECONNREFUSED" then
          ⟨503, false, none,
            some "AI service is not available. Please ensure the RAG service is running."⟩
        else
          ⟨500, false, none,
            some (jsOr e.responseDataError
              (jsOr (some e.message) "Failed to summarize file"))⟩
    (r, [fwd])

/- ============================================================ -/
/- aiController.generateDocument                                -/
/- ============================================================ -/

/-- The accepted values for `docType` in `generateDocument`. -/
def validDocTypes : List String := ["summary", "report", "outline", "key_points"]

/-- The JSON response the `generateDocument` handler sends to its caller. -/
structure GenDocResult where
  status : Nat
  success : Bool
  content : Option String
  error : Option String
deriving DecidableEq, Repr

/-- Body of a 2xx response from the RAG service `POST /generate-doc`. -/
structure GenDocRagBody where
  success : Bool
  content : String
  docType : String
deriving DecidableEq, Repr

/-- Request forwarded by the controller to the RAG service `/generate-doc`. -/
structure GenDocForward where
  filePath : String
  fileId : Option String
  docType : String
deriving DecidableEq, Repr

/-- Embedding of `generateDocument` (aiController.js): `docType` defaults to
"summary"; after the `filePath` check, any `docType` outside
`validDocTypes` is rejected with 400 and nothing is forwarded; otherwise
one request is forwarded to the RAG service. -/
def generateDocument (filePath fileId docType : Option String)
    (rag : GenDocForward → RagOutcome GenDocRagBody) :
    GenDocResult × List GenDocForward :=
  let dt := docType.getD "summary"
  if jsFalsy filePath then
    (⟨400, false, none, some "File path is required"⟩, [])
  else if ¬ validDocTypes.contains dt then
    (⟨400, false, none,
      some "Invalid document type. Must be one of: summary, report, outline, key_points"⟩, [])
  else
    let fwd : GenDocForward := ⟨filePath.getD "", fileId, dt⟩
    let r : GenDocResult :=
      match rag fwd with
      | .ok d => ⟨200, d.success, some d.content, none⟩
      | .threw e =>
        if e.code = some "ECONNREFUSED" then
          (⟨503, false, none, some "AI service is not available"⟩)
        else
          ⟨500, false, none,
            some (jsOr e.responseDataError
              (jsOr (some e.message) "Failed to generate document"))⟩
    (r, [fwd])

/- ============================================================ -/
/- aiController.indexFileAsync                                  -/
/- ============================================================ -/

/-- The value `indexFileAsync` resolves with: either the RAG response body
passed through, or `{ success: false, error: error.message }`. -/
structure AsyncIndexResult where
  success : Bool
  message : Option String
  numChunks : Option Nat
  error : Option String
deriving DecidableEq, Repr

/-- Embedding of `indexFileAsync` (aiController.js): returns `response.data`
on success and `{ success: false, error: error.message }` on any thrown
error — it never rethrows, so its caller (the upload flow) cannot be
aborted by an indexing failure. -/
def indexFileAsync (filePath : String) (fileId : Option String)
    (rag : IndexForward → RagOutcome IndexRagBody) : AsyncIndexResult :=
  match rag ⟨filePath, fileId⟩ with
  | .ok d => ⟨d.success, some d.message, d.numChunks, none⟩
  | .threw e => ⟨false, none, none, some e.message⟩

/- ============================================================ -/
/- The mongoose File schema and its mutating operations         -/
/- ============================================================ -/

/-- A `File` document, mirroring the fields of the mongoose `fileSchema`
that the controllers read or mutate.  Timestamps are modelled as
milliseconds-since-epoch naturals, object ids as naturals. -/
structure FileDoc where
  id : Nat
  originalName : String
  currentFileName : String
  mimeType : String
  size : Nat
  extension : String
  folder : Option Nat
  currentVersion : Nat
  isShared : Bool
  shareLink : Option String
  sharedAt : Option Nat
  isStarred : Bool
  starredAt : Option Nat
  isDeleted : Bool
  deletedAt : Option Nat
  tags : List String
  createdAt : Nat
deriving DecidableEq, Repr

/-- The document created by `uploadFile` (fileController.js): sharing off,
and the schema defaults for the starred/trash fields. -/
def mkUploadedFile (id : Nat) (originalName currentFileName mimeType : String)
    (size : Nat) (extension : String) (folder : Option Nat) (now : Nat) : FileDoc :=
  { id := id
    originalName := originalName
    currentFileName := currentFileName
    mimeType := mimeType
    size := size
    extension := extension
    folder := folder
    currentVersion := 1
    isShared := false
    shareLink := none
    sharedAt := none
    isStarred := false
    starredAt := none
    isDeleted := false
    deletedAt := none
    tags := []
    createdAt := now }

/-- Embedding of `toggleStar` (featuresController.js): flips `isStarred`
and sets `starredAt` to the current date when starring, `null` when
unstarring. -/
def toggleStar (now : Nat) (f : FileDoc) : FileDoc :=
  let st := !f.isStarred
  { f with isStarred := st, starredAt := if st then some now else none }

/-- Embedding of `moveToTrash` (featuresController.js). -/
def moveToTrash (now : Nat) (f : FileDoc) : FileDoc :=
  { f with isDeleted := true, deletedAt := some now }

/-- Embedding of `restoreFromTrash` (featuresController.js). -/
def restoreFromTrash (f : FileDoc) : FileDoc :=
  { f with isDeleted := false, deletedAt := none }

/-- Embedding of the document update in `updateTags`
(featuresController.js): `file.tags = tags || []`. -/
def updateTags (tags : Option (List String)) (f : FileDoc) : FileDoc :=
  { f with tags := tags.getD [] }

/-- Embedding of the document update in `moveFile` (fileController.js):
`file.folder = targetFolder || null`. -/
def moveFile (targetFolder : Option Nat) (f : FileDoc) : FileDoc :=
  { f with folder := targetFolder }

/-- Embedding of the document update in `renameFile` (fileController.js):
keeps the original extension when the new name has no dot. -/
def renameFile (name : String) (f : FileDoc) : FileDoc :=
  let t := jsTrim name
  { f with originalName := if t.contains '.' then t else t ++ f.extension }

/-- Embedding of the document update in `enableSharing`
(shareController.js): a no-op when already shared with a link, otherwise
turns sharing on with a fresh link. -/
def enableSharing (link : String) (now : Nat) (f : FileDoc) : FileDoc :=
  if f.isShared && !jsFalsy f.shareLink then f
  else { f with isShared := true, shareLink := some link, sharedAt := some now }

/-- Embedding of the document update in `disableSharing`
(shareController.js). -/
def disableSharing (f : FileDoc) : FileDoc :=
  { f with isShared := false, shareLink := none, sharedAt := none }

/-- Embedding of the document update in `uploadNewVersion`
(versionController.js): replaces the current content metadata and bumps
the version number. -/
def uploadNewVersion (newFileName newOriginalName newMimeType : String)
    (newSize : Nat) (newExtension : String) (f : FileDoc) : FileDoc :=
  { f with
    currentFileName := newFileName
    originalName := newOriginalName
    mimeType := newMimeType
    size := newSize
    extension := newExtension
    currentVersion := f.currentVersion + 1 }

/-- Embedding of the document update in `restoreVersion`
(versionController.js): points the file at the copied version content and
bumps the version number. -/
def restoreVersion (newFileName versionOriginalName versionMimeType : String)
    (versionSize : Nat) (f : FileDoc) : FileDoc :=
  { f with
    currentFileName := newFileName
    originalName := versionOriginalName
    size := versionSize
    mimeType := versionMimeType
    currentVersion := f.currentVersion + 1 }

/- ============================================================ -/
/- Listing queries over the File collection                     -/
/- ============================================================ -/

/-- The mongo criterion `isDeleted: { $ne: true }` on our Bool field. -/
def notTrashed (f : FileDoc) : Bool := f.isDeleted ≠ true

/-- Embedding of the `getFiles` query (fileController.js):
`{ folder, isDeleted: { $ne: true } }`, sorted by `originalName`
ascending. -/
def getFiles (folder : Option Nat) (db : List FileDoc) : List FileDoc :=
  (db.filter (fun f => f.folder = folder && notTrashed f)).mergeSort
    (fun a b => a.originalName ≤ b.originalName)

/-- Embedding of the `getStarredFiles` query (featuresController.js):
`{ isStarred: true, isDeleted: { $ne: true } }`, sorted by `starredAt`
descending. -/
def getStarredFiles (db : List FileDoc) : List FileDoc :=
  (db.filter (fun f => f.isStarred && notTrashed f)).mergeSort
    (fun a b => b.starredAt.getD 0 ≤ a.starredAt.getD 0)

/-- Embedding of the `getRecentFiles` query (featuresController.js):
`{ isDeleted: { $ne: true } }`, sorted by `createdAt` descending, limited. -/
def getRecentFiles (limit : Nat) (db : List FileDoc) : List FileDoc :=
  ((db.filter notTrashed).mergeSort
    (fun a b => b.createdAt ≤ a.createdAt)).take limit

/-- Milliseconds in a day. -/
def dayMs : Nat := 24 * 60 * 60 * 1000

/-- The expiry decoration `getTrash` adds to each trashed file:
`max 0 (ceil((deletedAt + 30 days - now) / day))`. -/
def daysRemaining (now deletedAt : Nat) : Nat :=
  let expiry := deletedAt + 30 * dayMs
  if expiry ≤ now then 0 else (expiry - now + dayMs - 1) / dayMs

/-- A trash listing entry: the file plus its days-remaining decoration. -/
structure TrashEntry where
  file : FileDoc
  daysLeft : Nat
  expiryDate : Nat
deriving DecidableEq, Repr

/-- Embedding of the `getTrash` query (featuresController.js):
`{ isDeleted: true }`, sorted by `deletedAt` descending, each file
decorated with its days remaining before permanent deletion. -/
def getTrash (now : Nat) (db : List FileDoc) : List TrashEntry :=
  ((db.filter (fun f => f.isDeleted)).mergeSort
    (fun a b => b.deletedAt.getD 0 ≤ a.deletedAt.getD 0)).map
    (fun f => ⟨f, daysRemaining now (f.deletedAt.getD 0), f.deletedAt.getD 0 + 30 * dayMs⟩)

/- ============================================================ -/
/- RAG service core, modelled from the spec                     -/
/- ============================================================ -/

/-- Accumulating splitter over a character list: cuts a word at every
whitespace character and drops empty pieces. -/
def splitWsAux : List Char → List Char → List String
  | [], acc => if acc.isEmpty then [] else [String.mk acc.reverse]
  | c :: cs, acc =>
    if c.isWhitespace then
      if acc.isEmpty then splitWsAux cs []
      else String.mk acc.reverse :: splitWsAux cs []
    else splitWsAux cs (c :: acc)

/-- Modelled from the spec: the RAG service's `chunker.py` is not among the
sources, so tokenization follows section 4.2's fallback, "whitespace/
punctuation splitting": split the normalized text on whitespace and drop
empty pieces. -/
def tokenize (t : String) : List String :=
  splitWsAux t.data []

/-- Modelled from the spec: a chunk per section 3 — a stable ordering index
`chunkId`, the first source-token offset, and the chunk's tokens. -/
structure Chunk where
  chunkId : Nat
  startTok : Nat
  toks : List String
deriving DecidableEq, Repr

/-- Modelled from the spec: the chunker's typed failure for an invalid
`(chunk_size, overlap)` configuration. -/
inductive ChunkError where
  | invalidChunkConfig
deriving DecidableEq, Repr

/-- Modelled from the spec (section 4.2): walk the token stream producing
windows of `size` tokens, advancing the window start by `step` tokens each
time; the last window may be shorter and is still emitted. -/
def chunkLoop (size step : Nat) (hstep : 0 < step) (toks : List String)
    (idx start : Nat) : List Chunk :=
  if _h : toks.length ≤ size then
    [⟨idx, start, toks⟩]
  else
    ⟨idx, start, toks.take size⟩ ::
      chunkLoop size step hstep (toks.drop step) (idx + 1) (start + step)
termination_by toks.length
decreasing_by simp only [List.length_drop]; omega

/-- Modelled from the spec: `chunk` on an already-tokenized stream.  The
configuration constraint `overlap < size` is enforced with
`InvalidChunkConfigError`; the window start advances by `size - overlap`. -/
def chunkTokens (toks : List String) (size overlap : Nat) :
    Except ChunkError (List Chunk) :=
  if h : overlap < size then
    .ok (chunkLoop size (size - overlap) (by omega) toks 0 0)
  else
    .error .invalidChunkConfig

/-- Modelled from the spec: `chunk(normalized_text, chunk_size_tokens,
overlap_tokens)` — tokenize, then window. -/
def chunk (t : String) (size overlap : Nat) : Except ChunkError (List Chunk) :=
  chunkTokens (tokenize t) size overlap

/-- Modelled from the spec: an index entry of the vector store
(`vector_store.py` is not among the sources) — a chunk id with its
embedding vector, scores taken in ℚ. -/
structure IndexEntry where
  chunkId : Nat
  emb : List ℚ
deriving DecidableEq, Repr

/-- Dot product of two vectors; the spec defines similarity as the dot
product over L2-normalized vectors, so stored and query vectors are taken
as already normalized. -/
def dot : List ℚ → List ℚ → ℚ
  | a :: as, b :: bs => a * b + dot as bs
  | _, _ => 0

/-- The result ordering of the vector index: descending similarity score,
ties broken by ascending `chunkId`. -/
def resLe (a b : IndexEntry × ℚ) : Bool :=
  decide (b.2 < a.2 ∨ (a.2 = b.2 ∧ a.1.chunkId ≤ b.1.chunkId))

/-- Modelled from the spec (section 4.3): `search` scores every stored
entry against the query embedding, sorts by descending score with ties by
ascending chunk id, and returns the top `k`. -/
def search (idx : List IndexEntry) (q : List ℚ) (k : Nat) :
    List (IndexEntry × ℚ) :=
  ((idx.map (fun e => (e, dot q e.emb))).mergeSort resLe).take k

/- ============================================================ -/
/- Theorems                                                     -/
/- ============================================================ -/

/-- C2: the chunk operation is pure and deterministic — two runs of `chunk`
on the same normalized text and the same valid `(chunk_size, overlap)`
configuration yield identical chunk sequences. -/
theorem chunk_deterministic (t : String) (size overlap : Nat)
    (r₁ r₂ : Except ChunkError (List Chunk))
    (h₁ : chunk t size overlap = r₁) (h₂ : chunk t size overlap = r₂) :
    r₁ = r₂ := by
  rw [← h₁, ← h₂]

/-- Witness for C2 at a concrete text and configuration. -/
theorem chunk_deterministic_witness :
    chunk "alpha beta gamma" 600 120 = chunk "alpha beta gamma" 600 120 :=
  chunk_deterministic "alpha beta gamma" 600 120
    (chunk "alpha beta gamma" 600 120) (chunk "alpha beta gamma" 600 120)
    rfl rfl

/-- C3: for every normalized text whose token count is at most
`chunk_size_tokens`, and every valid configuration, `chunk` produces
exactly one chunk, and that chunk holds the whole token stream of the
text, starting at offset 0. -/
theorem chunk_single_when_small (t : String) (size overlap : Nat)
    (hlen : (tokenize t).length ≤ size) (hcfg : overlap < size) :
    chunk t size overlap = .ok [⟨0, 0, tokenize t⟩] := by
  unfold chunk chunkTokens
  rw [dif_pos hcfg]
  unfold chunkLoop
  rw [dif_pos hlen]

/-- Witness for C3: a three-token text with the spec's default
configuration produces the single whole-text chunk. -/
theorem chunk_single_when_small_witness :
    chunk "alpha beta gamma" 600 120 =
      .ok [⟨0, 0, ["alpha", "beta", "gamma"]⟩] := by
  have h := chunk_single_when_small "alpha beta gamma" 600 120
    (by decide) (by decide)
  rw [h]
  rfl

/-- C8: `indexFileAsync` is total with respect to provider failures — a
thrown RAG call resolves to `{ success: false, error: error.message }`
instead of propagating the exception, and a successful call passes the
response body through. -/
theorem indexFileAsync_never_throws (fp : String) (fid : Option String)
    (e : AxiosError) (d : IndexRagBody) :
    indexFileAsync fp fid (fun _ => .threw e) =
      ⟨false, none, none, some e.message⟩ ∧
    indexFileAsync fp fid (fun _ => .ok d) =
      ⟨d.success, some d.message, d.numChunks, none⟩ :=
  ⟨rfl, rfl⟩

/-- C4: on the write path, if the RAG service call throws (a stage failure
or an unreachable service), `indexFile` responds with `success: false` and
HTTP status 500 or 503 — never a success response — while a successful
call passes the RAG body, chunk count included, through with status 200. -/
theorem indexFile_failure_surfaces (fp fid : Option String) (e : AxiosError)
    (d : IndexRagBody) (hfp : jsFalsy fp = false) :
    ((indexFile fp fid (fun _ => .threw e)).1.success = false ∧
      ((indexFile fp fid (fun _ => .threw e)).1.status = 500 ∨
        (indexFile fp fid (fun _ => .threw e)).1.status = 503)) ∧
    ((indexFile fp fid (fun _ => .ok d)).1.status = 200 ∧
      (indexFile fp fid (fun _ => .ok d)).1.success = d.success ∧
      (indexFile fp fid (fun _ => .ok d)).1.numChunks = d.numChunks) := by
  refine ⟨⟨?_, ?_⟩, ?_, ?_, ?_⟩ <;> simp only [indexFile, hfp] <;>
    simp <;> split <;> simp

/-- Witness for C4: a concrete request whose RAG call throws yields a
failure response. -/
theorem indexFile_failure_surfaces_witness :
    (indexFile (some "doc.pdf") none
        (fun _ => .threw ⟨none, "boom", none⟩)).1.success = false :=
  (indexFile_failure_surfaces (some "doc.pdf") none ⟨none, "boom", none⟩
    ⟨true, "ok", some 3⟩ (by decide)).1.1

/-- C5: on the read path, a connection-refused RAG provider makes both
`askQuestion` and `summarizeFile` respond 503 with `success: false`, and
each controller issues exactly one provider call — no retry. -/
theorem readPath_unavailable_503 (fp fid q : Option String) (e : AxiosError)
    (hfp : jsFalsy fp = false) (hq : blankQuestion q = false)
    (hcode : e.code = some "ECONNREFUSED") :
    ((askQuestion fp fid q (fun _ => .threw e)).1.status = 503 ∧
      (askQuestion fp fid q (fun _ => .threw e)).1.success = false ∧
      (askQuestion fp fid q (fun _ => .threw e)).2.length = 1) ∧
    ((summarizeFile fp fid (fun _ => .threw e)).1.status = 503 ∧
      (summarizeFile fp fid (fun _ => .threw e)).1.success = false ∧
      (summarizeFile fp fid (fun _ => .threw e)).2.length = 1) := by
  refine ⟨⟨?_, ?_, ?_⟩, ?_, ?_, ?_⟩ <;>
    simp [askQuestion, summarizeFile, hfp, hq, hcode]

/-- Witness for C5 at a concrete request and a connection-refused error. -/
theorem readPath_unavailable_503_witness :
    (askQuestion (some "doc.pdf") none (some "hi")
        (fun _ => .threw ⟨some "ECONNREFUSED", "connect ECONNREFUSED", none⟩)).1.status
      = 503 :=
  (readPath_unavailable_503 (some "doc.pdf") none (some "hi")
    ⟨some "ECONNREFUSED", "connect ECONNREFUSED", none⟩
    (by decide) (by decide) rfl).1.1

/-- C6: `generateDocument` accepts the requested output kind exactly when
it is one of summary, report, outline, key_points — any other `docType`
yields an HTTP 400 failure with nothing forwarded to the RAG service,
while a valid kind (with a valid file path) forwards exactly one
request. -/
theorem generateDocument_docType_gate (fp fid docType : Option String)
    (rag : GenDocForward → RagOutcome GenDocRagBody) :
    (docType.getD "summary" ∉ validDocTypes →
      (generateDocument fp fid docType rag).1.status = 400 ∧
      (generateDocument fp fid docType rag).1.success = false ∧
      (generateDocument fp fid docType rag).2 = []) ∧
    (jsFalsy fp = false → docType.getD "summary" ∈ validDocTypes →
      (generateDocument fp fid docType rag).2 =
        [⟨fp.getD "", fid, docType.getD "summary"⟩]) := by
  constructor
  · intro hdt
    by_cases hfp : jsFalsy fp = true
    · refine ⟨?_, ?_, ?_⟩ <;> simp [generateDocument, hfp]
    · refine ⟨?_, ?_, ?_⟩ <;> simp [generateDocument, hfp, hdt]
  · intro hfp hdt
    simp [generateDocument, hfp, hdt]

/-- Witness for C6: the invalid kind "poem" is rejected with 400 and no
forwarded request; the valid kind "outline" is forwarded. -/
theorem generateDocument_docType_gate_witness :
    ((generateDocument (some "doc.pdf") none (some "poem")
        (fun _ => .ok ⟨true, "x", "poem"⟩)).1.status = 400 ∧
      (generateDocument (some "doc.pdf") none (some "poem")
        (fun _ => .ok ⟨true, "x", "poem"⟩)).1.success = false ∧
      (generateDocument (some "doc.pdf") none (some "poem")
        (fun _ => .ok ⟨true, "x", "poem"⟩)).2 = []) ∧
    (generateDocument (some "doc.pdf") none (some "outline")
        (fun _ => .ok ⟨true, "x", "outline"⟩)).2 =
      [⟨"doc.pdf", none, "outline"⟩] :=
  ⟨(generateDocument_docType_gate (some "doc.pdf") none (some "poem")
      (fun _ => .ok ⟨true, "x", "poem"⟩)).1 (by decide),
    (generateDocument_docType_gate (some "doc.pdf") none (some "outline")
      (fun _ => .ok ⟨true, "x", "outline"⟩)).2 (by decide) (by decide)⟩

/-- C7: `askQuestion` requires a file path and a non-blank question — if
either is missing or the question trims to empty, it responds 400 with
`success: false` and forwards nothing; otherwise exactly one request is
forwarded carrying the trimmed question. -/
theorem askQuestion_requires_path_and_question (fp fid q : Option String)
    (rag : AskForward → RagOutcome AskRagBody) :
    (jsFalsy fp = true ∨ blankQuestion q = true →
      (askQuestion fp fid q rag).1.status = 400 ∧
      (askQuestion fp fid q rag).1.success = false ∧
      (askQuestion fp fid q rag).2 = []) ∧
    (jsFalsy fp = false → blankQuestion q = false →
      (askQuestion fp fid q rag).2 =
        [⟨fp.getD "", fid, jsTrim (q.getD "")⟩]) := by
  constructor
  · rintro (h | h)
    · refine ⟨?_, ?_, ?_⟩ <;> simp [askQuestion, h]
    · by_cases hfp : jsFalsy fp = true
      · refine ⟨?_, ?_, ?_⟩ <;> simp [askQuestion, hfp]
      · refine ⟨?_, ?_, ?_⟩ <;> simp [askQuestion, hfp, h]
  · intro hfp hq
    simp [askQuestion, hfp, hq]

/-- Witness for C7: a blank question is rejected without any forwarded
request, and a padded question is forwarded trimmed. -/
theorem askQuestion_requires_path_and_question_witness :
    ((askQuestion (some "doc.pdf") none (some "   ")
        (fun _ => .ok ⟨true, "a"⟩)).1.status = 400 ∧
      (askQuestion (some "doc.pdf") none (some "   ")
        (fun _ => .ok ⟨true, "a"⟩)).1.success = false ∧
      (askQuestion (some "doc.pdf") none (some "   ")
        (fun _ => .ok ⟨true, "a"⟩)).2 = []) ∧
    (askQuestion (some "doc.pdf") none (some "  hi ")
        (fun _ => .ok ⟨true, "a"⟩)).2 = [⟨"doc.pdf", none, "hi"⟩] :=
  ⟨(askQuestion_requires_path_and_question (some "doc.pdf") none (some "   ")
      (fun _ => .ok ⟨true, "a"⟩)).1 (Or.inr (by decide)),
    by
      have h := (askQuestion_requires_path_and_question (some "doc.pdf") none
        (some "  hi ") (fun _ => .ok ⟨true, "a"⟩)).2 (by decide) (by decide)
      rw [h]
      rfl⟩

/-- C9: `toggleStar` establishes the invariant that `starredAt` is non-null
exactly when `isStarred` is true — starring stamps the current date,
unstarring resets to null — and every other file-document operation
(trash, restore, tags, move, rename, sharing, versioning, upload) leaves
`starredAt` and `isStarred` untouched (upload creates them at their
defaults `null`/`false`). -/
theorem toggleStar_starredAt_invariant (now : Nat) (f : FileDoc)
    (tags : Option (List String)) (tgt : Option Nat) (name link : String)
    (a b c ext g p r : String) (n m uid unow : Nat) :
    ((toggleStar now f).starredAt ≠ none ↔ (toggleStar now f).isStarred = true) ∧
    ((toggleStar now f).isStarred = !f.isStarred ∧
      (toggleStar now f).starredAt = (if f.isStarred then none else some now)) ∧
    ((moveToTrash now f).starredAt = f.starredAt ∧
      (moveToTrash now f).isStarred = f.isStarred) ∧
    ((restoreFromTrash f).starredAt = f.starredAt ∧
      (restoreFromTrash f).isStarred = f.isStarred) ∧
    ((updateTags tags f).starredAt = f.starredAt ∧
      (updateTags tags f).isStarred = f.isStarred) ∧
    ((moveFile tgt f).starredAt = f.starredAt ∧
      (moveFile tgt f).isStarred = f.isStarred) ∧
    ((renameFile name f).starredAt = f.starredAt ∧
      (renameFile name f).isStarred = f.isStarred) ∧
    ((enableSharing link now f).starredAt = f.starredAt ∧
      (enableSharing link now f).isStarred = f.isStarred) ∧
    ((disableSharing f).starredAt = f.starredAt ∧
      (disableSharing f).isStarred = f.isStarred) ∧
    ((uploadNewVersion a b c n ext f).starredAt = f.starredAt ∧
      (uploadNewVersion a b c n ext f).isStarred = f.isStarred) ∧
    ((restoreVersion g p r m f).starredAt = f.starredAt ∧
      (restoreVersion g p r m f).isStarred = f.isStarred) ∧
    ((mkUploadedFile uid a b c n ext tgt unow).starredAt = none ∧
      (mkUploadedFile uid a b c n ext tgt unow).isStarred = false) := by
  refine ⟨?_, ⟨rfl, ?_⟩, ⟨rfl, rfl⟩, ⟨rfl, rfl⟩, ⟨rfl, rfl⟩, ⟨rfl, rfl⟩,
    ⟨rfl, rfl⟩, ?_, ⟨rfl, rfl⟩, ⟨rfl, rfl⟩, ⟨rfl, rfl⟩, rfl, rfl⟩
  · cases hf : f.isStarred <;> simp [toggleStar, hf]
  · cases hf : f.isStarred <;> simp [toggleStar, hf]
  · unfold enableSharing
    split <;> exact ⟨rfl, rfl⟩

/-- Witness for C9: toggling the star of a freshly uploaded (unstarred)
file stamps `starredAt` with the current date. -/
theorem toggleStar_starredAt_invariant_witness :
    (toggleStar 7 (mkUploadedFile 1 "a" "b" "c" 0 "" none 0)).starredAt =
      some 7 := by
  have h := toggleStar_starredAt_invariant 7
    (mkUploadedFile 1 "a" "b" "c" 0 "" none 0)
    none none "" "" "" "" "" "" "" "" "" 0 0 0 0
  rw [h.2.1.2]
  rfl

/-- C10: every non-trash listing (`getFiles`, `getStarredFiles`,
`getRecentFiles`) excludes files whose `isDeleted` flag is set, the trash
listing returns exactly the files whose `isDeleted` flag is set, and hence
no file appears in both a normal listing and the trash. -/
theorem listings_exclude_trash (db : List FileDoc) (folder : Option Nat)
    (limit now : Nat) (f : FileDoc) :
    (f ∈ getFiles folder db → f.isDeleted = false) ∧
    (f ∈ getStarredFiles db → f.isDeleted = false) ∧
    (f ∈ getRecentFiles limit db → f.isDeleted = false) ∧
    (f ∈ (getTrash now db).map TrashEntry.file ↔ f ∈ db ∧ f.isDeleted = true) ∧
    (f ∈ getFiles folder db → f ∉ (getTrash now db).map TrashEntry.file) := by
  have htrash : f ∈ (getTrash now db).map TrashEntry.file ↔
      f ∈ db ∧ f.isDeleted = true := by
    simp [getTrash, List.mem_map, List.mem_mergeSort, List.mem_filter]
  have hfiles : f ∈ getFiles folder db → f.isDeleted = false := by
    intro h
    simp only [getFiles, List.mem_mergeSort, List.mem_filter, notTrashed,
      Bool.and_eq_true, decide_eq_true_eq] at h
    simpa using h.2.2
  refine ⟨hfiles, ?_, ?_, htrash, ?_⟩
  · intro h
    simp only [getStarredFiles, List.mem_mergeSort, List.mem_filter,
      notTrashed, Bool.and_eq_true, decide_eq_true_eq] at h
    simpa using h.2.2
  · intro h
    have h' := List.take_subset limit _ h
    simp only [List.mem_mergeSort, List.mem_filter, notTrashed] at h'
    simpa using h'.2
  · intro h hmem
    have := (htrash.mp hmem).2
    rw [hfiles h] at this
    exact Bool.false_ne_true this

/-- Witness for C10: in a two-file database, the live file appears in the
normal listing and is not deleted. -/
theorem listings_exclude_trash_witness :
    (mkUploadedFile 1 "a" "b" "c" 0 "" none 0).isDeleted = false :=
  (listings_exclude_trash
      [mkUploadedFile 1 "a" "b" "c" 0 "" none 0,
        moveToTrash 5 (mkUploadedFile 2 "d" "e" "g" 0 "" none 0)]
      none 5 9 (mkUploadedFile 1 "a" "b" "c" 0 "" none 0)).1
    (List.mem_mergeSort.mpr (by decide))

/-- Unfolding of the result comparator into its ordering proposition. -/
theorem resLe_prop {a b : IndexEntry × ℚ} :
    resLe a b = true ↔
      (b.2 < a.2 ∨ (a.2 = b.2 ∧ a.1.chunkId ≤ b.1.chunkId)) := by
  simp [resLe]

/-- The result comparator is transitive. -/
theorem resLe_trans (a b c : IndexEntry × ℚ)
    (hab : resLe a b = true) (hbc : resLe b c = true) : resLe a c = true := by
  rw [resLe_prop] at hab hbc ⊢
  rcases hab with h1 | ⟨h1, h1'⟩ <;> rcases hbc with h2 | ⟨h2, h2'⟩
  · exact Or.inl (lt_trans h2 h1)
  · exact Or.inl (by rw [← h2]; exact h1)
  · exact Or.inl (by rw [h1]; exact h2)
  · exact Or.inr ⟨h1.trans h2, le_trans h1' h2'⟩

/-- The result comparator is total. -/
theorem resLe_total (a b : IndexEntry × ℚ) :
    (resLe a b || resLe b a) = true := by
  simp only [resLe, Bool.or_eq_true, decide_eq_true_eq]
  rcases lt_trichotomy a.2 b.2 with h | h | h
  · exact Or.inr (Or.inl h)
  · rcases Nat.le_total a.1.chunkId b.1.chunkId with h' | h'
    · exact Or.inl (Or.inr ⟨h, h'⟩)
    · exact Or.inr (Or.inr ⟨h.symm, h'⟩)
  · exact Or.inl (Or.inl h)

/-- C1: `search` returns at most `k` results; when `k` is at least the
index size it returns exactly all stored entries (as a permutation); and
the returned sequence is ordered by descending similarity score, ties
broken by ascending `chunkId`. -/
theorem search_topk_sorted (idx : List IndexEntry) (q : List ℚ) (k : Nat) :
    (search idx q k).length ≤ k ∧
    (idx.length ≤ k → ((search idx q k).map Prod.fst).Perm idx) ∧
    (search idx q k).Pairwise
      (fun a b => b.2 < a.2 ∨ (a.2 = b.2 ∧ a.1.chunkId ≤ b.1.chunkId)) := by
  refine ⟨?_, ?_, ?_⟩
  · simp [search, List.length_take]
  · intro hk
    have htake : search idx q k =
        (idx.map (fun e => (e, dot q e.emb))).mergeSort resLe :=
      List.take_of_length_le (by simp [List.length_mergeSort, hk])
    rw [htake]
    have hperm :=
      (List.mergeSort_perm (idx.map (fun e => (e, dot q e.emb))) resLe).map
        Prod.fst
    have hmap : (Prod.fst ∘ fun e : IndexEntry => (e, dot q e.emb)) = id := by
      funext e; rfl
    rw [List.map_map, hmap, List.map_id] at hperm
    exact hperm
  · have hs := List.sorted_mergeSort resLe_trans resLe_total
      (idx.map (fun e => (e, dot q e.emb)))
    exact (List.Pairwise.sublist (List.take_sublist k _) hs).imp
      (fun h => resLe_prop.mp h)

/-- Witness for C1: with a two-entry index and `k = 5 ≥ 2`, all entries
come back and no more than five results are returned. -/
theorem search_topk_sorted_witness :
    (search [⟨0, [1]⟩, ⟨1, [2]⟩] [(1 : ℚ)] 5).length ≤ 5 ∧
    ((search [⟨0, [1]⟩, ⟨1, [2]⟩] [(1 : ℚ)] 5).map Prod.fst).Perm
      [⟨0, [1]⟩, ⟨1, [2]⟩] :=
  ⟨(search_topk_sorted [⟨0, [1]⟩, ⟨1, [2]⟩] [(1 : ℚ)] 5).1,
    (search_topk_sorted [⟨0, [1]⟩, ⟨1, [2]⟩] [(1 : ℚ)] 5).2.1 (by decide)⟩

end DriveRag
